import Mathlib

/-!
Verification development for the ANTA test-orchestration engine
(arista-netdevops-community/network_tests_automation).

The Python source is shallowly embedded:
* pure logic becomes Lean functions;
* exception-raising code returns `Except`;
* the single-flight command cache (for which only callers are present in
  the repository snapshot) is modelled as an explicit transition system.

Definitions follow the Python source of `anta/tests/__init__.py`,
`anta/decorators.py`, `anta/result_manager/__init__.py` and
`anta/settings.py`; components whose source file is absent from the
snapshot (`anta/runner.py`, `anta/catalog.py`, `anta/device.py`,
`anta/result_manager/models.py`) are modelled from the specification and
carry a doc comment saying so.
-/

/-- Modelled from the spec (`anta/result_manager/models.py` is absent from
the snapshot): the status vocabulary of a Result, `unset` being the only
non-terminal state (spec section 3, "Result"). -/
inductive AntaTestStatus
  | unset
  | success
  | failure
  | error
  | skipped
deriving DecidableEq, Repr

/-- Modelled from the spec (`anta/result_manager/models.py` is absent from
the snapshot): a `TestResult` carries the device name, the test name, the
status and an append-only ordered list of messages (spec section 3,
"Result"); its unit tests in `tests/units/result_manager/test_models.py`
assert that each `is_foo` helper sets the status and appends its message. -/
structure TestResult where
  name : String
  test : String
  result : AntaTestStatus
  messages : List String
deriving DecidableEq, Repr

/-- Modelled from the spec: `TestResult._set_status` sets the status and
appends the message to the append-only message list. -/
def TestResult.set_status (r : TestResult) (s : AntaTestStatus) (message : String) : TestResult :=
  { r with result := s, messages := r.messages ++ [message] }

/-- Status helper `is_error`, asserted by the unit tests to set status
`error` and record the message. -/
def TestResult.is_error (r : TestResult) (message : String) : TestResult :=
  r.set_status AntaTestStatus.error message

/-- Status helper `is_skipped`, asserted by the unit tests to set status
`skipped` and record the message. -/
def TestResult.is_skipped (r : TestResult) (message : String) : TestResult :=
  r.set_status AntaTestStatus.skipped message

/-- Device of the legacy `anta.inventory.models.InventoryDevice` kind used
by `anta/tests/__init__.py`; only its `host` field is consulted there. -/
structure InventoryDevice where
  host : String
deriving DecidableEq, Repr

/-- A Python exception, reduced to the two attributes the `anta_test`
wrapper reads: `type(e).__name__` and `str(e)`. -/
structure PyException where
  typeName : String
  message : String
deriving DecidableEq, Repr

/-- A verification function wrapped by `anta_test`: its `__name__` and its
body. The body receives the device and the freshly created result and
either returns a `TestResult` or raises (`Except.error`). -/
structure VerificationFunction where
  name : String
  run : InventoryDevice → TestResult → Except PyException TestResult

/-- The fresh result created at the top of the `anta_test` wrapper:
`TestResult(name=str(device.host), test=function.__name__)`, with status
`unset` and no messages. -/
def initResult (function : VerificationFunction) (device : InventoryDevice) : TestResult :=
  { name := device.host, test := function.name, result := AntaTestStatus.unset, messages := [] }

/-- The `anta_test` decorator of `anta/tests/__init__.py`: build the fresh
result, call the wrapped function, and catch every exception, converting it
to an `error` result whose message is the exception type name, a colon and
the exception text. -/
def anta_test (function : VerificationFunction) (device : InventoryDevice) : TestResult :=
  let result := initResult function device
  match function.run device result with
  | Except.ok r => r
  | Except.error e => result.is_error (e.typeName ++ ": " ++ e.message)

/-- Device of the `anta.device.AntaDevice` kind consulted by
`anta/decorators.py`: a hardware model string and an optional hardware
series string. -/
structure AntaDevice where
  name : String
  hw_model : String
  hw_series : Option String
deriving DecidableEq, Repr

/-- The part of an `AntaTest` instance read by the decorators of
`anta/decorators.py`: its class/test name, its device and its result. -/
structure AntaTestInstance where
  name : String
  device : AntaDevice
  result : TestResult
deriving DecidableEq, Repr

/-- Observable effects of running a (possibly wrapped) test coroutine:
the returned result, the log records emitted, the number of
`AntaTest.update_progress` calls, and the number of times the innermost
verification body ran. -/
structure WrapOut where
  result : TestResult
  logs : List String
  progress : Nat
  bodyCalls : Nat
deriving DecidableEq, Repr

/-- The `action` literal of the platform filters; `platform_filter` and
`platform_series_filter` raise `ValueError` on any other string, which the
inductive type makes unrepresentable. -/
inductive FilterAction
  | run
  | skip
deriving DecidableEq, Repr

/-- Python `", ".join`. -/
def joinCommaSep : List String → String
  | [] => ""
  | [s] => s
  | s :: rest => s ++ ", " ++ joinCommaSep rest

/-- The warning logged by `deprecated_test`; `if new_tests:` is falsy for
both `None` and the empty list. -/
def deprecated_msg (t : AntaTestInstance) (new_tests : Option (List String)) : String :=
  match new_tests with
  | some (n :: ns) =>
      t.name ++ " test is deprecated. Consider using the following new tests: " ++
        joinCommaSep (n :: ns) ++ "."
  | _ => t.name ++ " test is deprecated."

/-- The `deprecated_test` decorator of `anta/decorators.py`: log the
deprecation warning, then unconditionally call the wrapped function. -/
def deprecated_test (new_tests : Option (List String))
    (function : AntaTestInstance → WrapOut) (t : AntaTestInstance) : WrapOut :=
  let out := function t
  { out with logs := deprecated_msg t new_tests :: out.logs }

/-- The skip message used by both platform filters. -/
def platform_skip_msg (t : AntaTestInstance) : String :=
  t.name ++ " test is not supported on " ++ t.device.hw_model ++ "."

/-- The warning logged by `platform_series_filter` when the device's
platform series is not set. -/
def series_ignored_msg (t : AntaTestInstance) : String :=
  "Platform series filter is ignored for test " ++ t.name ++
    " since the device's platform series is not set."

/-- The `platform_series_filter` decorator of `anta/decorators.py`:
return early (with one progress report) if the result is already terminal;
if the device has no hardware series, log a warning and run the wrapped
function; if the series is excluded by the action, mark the result skipped
and report progress; otherwise run the wrapped function. -/
def platform_series_filter (series : List String) (action : FilterAction)
    (function : AntaTestInstance → WrapOut) (t : AntaTestInstance) : WrapOut :=
  if t.result.result ≠ AntaTestStatus.unset then
    { result := t.result, logs := [], progress := 1, bodyCalls := 0 }
  else
    match t.device.hw_series with
    | none =>
        let out := function t
        { out with logs := series_ignored_msg t :: out.logs }
    | some s =>
        if (action = FilterAction.run ∧ s ∉ series) ∨ (action = FilterAction.skip ∧ s ∈ series) then
          { result := t.result.is_skipped (platform_skip_msg t), logs := [], progress := 1,
            bodyCalls := 0 }
        else function t

/-- The `platform_filter` decorator of `anta/decorators.py`: return early
(with one progress report) if the result is already terminal; if the
device's hardware model is excluded by the action, mark the result skipped
and report progress; otherwise run the wrapped function. -/
def platform_filter (platforms : List String) (action : FilterAction)
    (function : AntaTestInstance → WrapOut) (t : AntaTestInstance) : WrapOut :=
  if t.result.result ≠ AntaTestStatus.unset then
    { result := t.result, logs := [], progress := 1, bodyCalls := 0 }
  else if (action = FilterAction.run ∧ t.device.hw_model ∉ platforms) ∨
      (action = FilterAction.skip ∧ t.device.hw_model ∈ platforms) then
    { result := t.result.is_skipped (platform_skip_msg t), logs := [], progress := 1,
      bodyCalls := 0 }
  else function t

/-- One cross-cutting wrapper of `anta/decorators.py`, as data, so that a
whole stack of wrappers can be reasoned about. -/
inductive AntaWrapper
  | deprecated (new_tests : Option (List String))
  | platform (platforms : List String) (action : FilterAction)
  | platformSeries (series : List String) (action : FilterAction)

/-- Apply one wrapper to a wrapped function. -/
def applyWrapper : AntaWrapper → (AntaTestInstance → WrapOut) → AntaTestInstance → WrapOut
  | AntaWrapper.deprecated nt => deprecated_test nt
  | AntaWrapper.platform ps a => platform_filter ps a
  | AntaWrapper.platformSeries ss a => platform_series_filter ss a

/-- Apply a stack of wrappers, outermost first, around a body. -/
def applyWrapperStack : List AntaWrapper → (AntaTestInstance → WrapOut) → AntaTestInstance → WrapOut
  | [], body => body
  | w :: ws, body => applyWrapper w (applyWrapperStack ws body)

/-- True when the stack contains at least one platform (model or series)
filter. -/
def hasPlatformWrapper : List AntaWrapper → Bool
  | [] => false
  | AntaWrapper.deprecated _ :: ws => hasPlatformWrapper ws
  | AntaWrapper.platform _ _ :: _ => true
  | AntaWrapper.platformSeries _ _ :: _ => true

/-- Modelled from the spec (`anta/result_manager/models.py` is absent from
the snapshot): `ListResult` is the append-only ordered collection of
`TestResult` entries held by the Result Manager (spec section 3,
"Result Manager"). -/
abbrev ListResult := List TestResult

/-- The `ResultManager` of `anta/result_manager/__init__.py`: a wrapper
around its `_result_entries` list. -/
structure ResultManager where
  _result_entries : ListResult
deriving DecidableEq, Repr

/-- `ResultManager.__init__`: start with an empty entry list. -/
def ResultManager.new : ResultManager :=
  { _result_entries := [] }

/-- `ResultManager.__len__`: the number of stored results. -/
def ResultManager.length (m : ResultManager) : Nat :=
  m._result_entries.length

/-- `ResultManager.add_test_result`: append the entry to the list. -/
def ResultManager.add_test_result (m : ResultManager) (entry : TestResult) : ResultManager :=
  { _result_entries := m._result_entries ++ [entry] }

/-- The `output_format` selector of `ResultManager.get_results`. The
`json` format (a string rendering of the same entries) is not modelled. -/
inductive OutputFormat
  | native
  | list
deriving DecidableEq, Repr

/-- `ResultManager.get_results`: expose the stored entries, either as the
native `ListResult` or as a fresh Python list of the same entries (both
are the same sequence in this embedding). -/
def ResultManager.get_results (m : ResultManager) (output_format : OutputFormat) : ListResult :=
  match output_format with
  | OutputFormat.list => m._result_entries
  | OutputFormat.native => m._result_entries

/-- Fold a sequence of `add_test_result` calls over a manager. -/
def ResultManager.add_all (m : ResultManager) (entries : List TestResult) : ResultManager :=
  entries.foldl ResultManager.add_test_result m

/-- `MAX_CONCURRENCY` constant of `anta/settings.py`. -/
def MAX_CONCURRENCY : Nat := 10000

/-- Default HTTPX timeouts of `anta/settings.py` (floats embedded as
rationals; they are opaque configuration values, never computed with). -/
def HTTPX_CONNECT_TIMEOUT : ℚ := 5
/-- Default HTTPX read timeout. -/
def HTTPX_READ_TIMEOUT : ℚ := 5
/-- Default HTTPX write timeout. -/
def HTTPX_WRITE_TIMEOUT : ℚ := 5
/-- Default HTTPX pool timeout. -/
def HTTPX_POOL_TIMEOUT : ℚ := 5

/-- A pydantic validation failure. -/
structure ValidationError where
  msg : String
deriving DecidableEq, Repr

/-- Parse an unsigned decimal digit string (used for Python `int`/`float`
environment values); `none` on any non-digit character. -/
def digitsToNatAux : List Char → Nat → Option Nat
  | [], acc => some acc
  | c :: cs, acc =>
      if c.isDigit then digitsToNatAux cs (acc * 10 + (c.toNat - 48)) else none

/-- Python `int(s)` on the plain decimal forms pydantic receives from the
environment: an optional minus sign followed by at least one digit. -/
def parsePyInt (s : String) : Option Int :=
  match s.data with
  | [] => none
  | c :: cs =>
      if c = Char.ofNat 45 then
        match cs with
        | [] => none
        | _ => (digitsToNatAux cs 0).map (fun n => -(n : Int))
      else (digitsToNatAux (c :: cs) 0).map (fun n => (n : Int))

/-- The `MaxConcurrencySettings` pydantic model of `anta/settings.py`: one
`PositiveInt` field `max_concurrency` defaulting to `MAX_CONCURRENCY`. -/
structure MaxConcurrencySettings where
  max_concurrency : Nat
deriving DecidableEq, Repr

/-- Constructing `MaxConcurrencySettings` against an environment where
`ANTA_MAX_CONCURRENCY` holds the given optional string: the default when
unset, the parsed value when it is a positive integer, and a validation
error otherwise (non-integer, zero or negative). -/
def MaxConcurrencySettings.ofEnv (env : Option String) :
    Except ValidationError MaxConcurrencySettings :=
  match env with
  | none => Except.ok { max_concurrency := MAX_CONCURRENCY }
  | some s =>
      match parsePyInt s with
      | none => Except.error { msg := "Input should be a valid integer" }
      | some i =>
          if 0 < i then Except.ok { max_concurrency := i.toNat }
          else Except.error { msg := "Input should be greater than 0" }

/-- `get_max_concurrency` of `anta/settings.py`: instantiate the settings
model and return its `max_concurrency` field (a pydantic validation error
propagates to the caller). -/
def get_max_concurrency (env : Option String) : Except ValidationError Nat :=
  (MaxConcurrencySettings.ofEnv env).map MaxConcurrencySettings.max_concurrency

/-- Split a character list at the first dot, if any. -/
def charsSplitDot : List Char → List Char × Option (List Char)
  | [] => ([], none)
  | c :: cs =>
      if c = Char.ofNat 46 then ([], some cs)
      else
        let (a, b) := charsSplitDot cs
        (c :: a, b)

/-- Magnitude of a plain decimal float literal: digits, optionally with a
dot and fraction digits; at least one digit overall. -/
def parsePyFloatMag (cs : List Char) : Option ℚ :=
  let (ip, fpOpt) := charsSplitDot cs
  match fpOpt with
  | none =>
      if ip.isEmpty then none else (digitsToNatAux ip 0).map (fun n => (n : ℚ))
  | some fp =>
      if ip.isEmpty ∧ fp.isEmpty then none
      else
        match digitsToNatAux ip 0, digitsToNatAux fp 0 with
        | some n, some f => some ((n : ℚ) + (f : ℚ) / ((10 : ℚ) ^ fp.length))
        | _, _ => none

/-- Python `float(s)` on the plain decimal forms pydantic receives from
the environment (optional minus sign, digits, optional fraction). -/
def parsePyFloat (s : String) : Option ℚ :=
  match s.data with
  | [] => none
  | c :: cs =>
      if c = Char.ofNat 45 then (parsePyFloatMag cs).map (fun q => -q)
      else (parsePyFloatMag (c :: cs)).map (fun q => q)

/-- The four `ANTA_*_TIMEOUT` environment variables consulted by
`HttpxTimeoutsSettings` (`env_prefix="ANTA_"`), each an optional raw
string. -/
structure TimeoutsEnv where
  connect : Option String
  read : Option String
  write : Option String
  pool : Option String
deriving DecidableEq, Repr

/-- The `HttpxTimeoutsSettings` pydantic model of `anta/settings.py`:
four `NonNegativeFloat | None` fields plus, for each, the
`model_fields_set` flag exposed by the `*_set` properties. -/
structure HttpxTimeoutsSettings where
  connect_timeout : Option ℚ
  read_timeout : Option ℚ
  write_timeout : Option ℚ
  pool_timeout : Option ℚ
  connect_set : Bool
  read_set : Bool
  write_set : Bool
  pool_set : Bool
deriving DecidableEq, Repr

/-- Parse one timeout field: unset keeps the default (field not in
`model_fields_set`); the string `"None"` yields `None`
(`env_parse_none_str="None"`); a non-negative float parses; anything else
is a validation error. -/
def parseTimeoutField (env : Option String) (dflt : ℚ) :
    Except ValidationError (Option ℚ × Bool) :=
  match env with
  | none => Except.ok (some dflt, false)
  | some s =>
      if s = "None" then Except.ok (none, true)
      else
        match parsePyFloat s with
        | none => Except.error { msg := "Input should be a valid number" }
        | some q =>
            if 0 ≤ q then Except.ok (some q, true)
            else Except.error { msg := "Input should be greater than or equal to 0" }

/-- Constructing `HttpxTimeoutsSettings` against an environment: each of
the four fields is validated; any validation failure aborts the
construction. -/
def HttpxTimeoutsSettings.ofEnv (env : TimeoutsEnv) :
    Except ValidationError HttpxTimeoutsSettings :=
  match parseTimeoutField env.connect HTTPX_CONNECT_TIMEOUT with
  | Except.error e => Except.error e
  | Except.ok c =>
    match parseTimeoutField env.read HTTPX_READ_TIMEOUT with
    | Except.error e => Except.error e
    | Except.ok r =>
      match parseTimeoutField env.write HTTPX_WRITE_TIMEOUT with
      | Except.error e => Except.error e
      | Except.ok w =>
        match parseTimeoutField env.pool HTTPX_POOL_TIMEOUT with
        | Except.error e => Except.error e
        | Except.ok p =>
            Except.ok { connect_timeout := c.1, read_timeout := r.1, write_timeout := w.1,
                        pool_timeout := p.1, connect_set := c.2, read_set := r.2,
                        write_set := w.2, pool_set := p.2 }

/-- The `httpx.Timeout` value assembled by `get_httpx_timeout`. -/
structure HttpxTimeout where
  connect : Option ℚ
  read : Option ℚ
  write : Option ℚ
  pool : Option ℚ
deriving DecidableEq, Repr

/-- `get_httpx_timeout` of `anta/settings.py`: for each operation, use the
settings value when the corresponding environment variable was set and
`default_timeout` otherwise. -/
def get_httpx_timeout (env : TimeoutsEnv) (default_timeout : Option ℚ) :
    Except ValidationError HttpxTimeout :=
  match HttpxTimeoutsSettings.ofEnv env with
  | Except.error e => Except.error e
  | Except.ok settings =>
      Except.ok
        { connect := if settings.connect_set then settings.connect_timeout else default_timeout,
          read := if settings.read_set then settings.read_timeout else default_timeout,
          write := if settings.write_set then settings.write_timeout else default_timeout,
          pool := if settings.pool_set then settings.pool_timeout else default_timeout }

/-- Modelled from the spec (`anta/catalog.py` is absent from the
snapshot): a catalog entry is a test-type reference, a validated input
(summarised by an identifier) and an optional tag filter, absent meaning
the definition applies to every device (spec section 3,
"Test Definition"). -/
structure AntaTestDefinition where
  name : String
  inputsId : Nat
  tags : Option (List String)
deriving DecidableEq, Repr

/-- Modelled from the spec: the indexes derived by
`AntaCatalog.build_indexes` — the definitions with no tag filter, and a
mapping from each tag to the definitions requiring that tag (spec
section 4.4). -/
structure CatalogIndexes where
  tests_without_tags : List AntaTestDefinition
  tag_to_tests : String → List AntaTestDefinition

/-- Modelled from the spec: does a definition's tag filter require the
given tag? Definitions without a filter are indexed separately. -/
def tagsIncludeTag (tags : Option (List String)) (tag : String) : Bool :=
  match tags with
  | some l => l.contains tag
  | none => false

/-- Modelled from the spec: does a definition's required tag set exist and
lie entirely inside the query tags (conjunctive match)? -/
def tagsSubsetOf (tags : Option (List String)) (query : List String) : Bool :=
  match tags with
  | some l => l.all (fun t => query.contains t)
  | none => false

/-- Modelled from the spec: `build_indexes(restrict_to)` first filters the
definitions by test-type name when `restrict_to` is given, then partitions
them into the untagged set and the per-tag sets (spec section 4.4). -/
def build_indexes (defs : List AntaTestDefinition) (restrict_to : Option (List String)) :
    CatalogIndexes :=
  let filtered : List AntaTestDefinition := match restrict_to with
    | some names => defs.filter (fun d => names.contains d.name)
    | none => defs
  { tests_without_tags := filtered.filter (fun d => d.tags.isNone),
    tag_to_tests := fun tag => filtered.filter (fun d => tagsIncludeTag d.tags tag) }

/-- Modelled from the spec: `tests_for_tags`/`get_tests_by_tags`.
Non-strict: the union of the untagged set and, for each query tag, the
indexed set for that tag. Strict: only the definitions carrying a tag
filter whose entire required tag set is a subset of the query tags (spec
section 4.4). -/
def get_tests_by_tags (defs : List AntaTestDefinition) (query : List String) (strict : Bool) :
    List AntaTestDefinition :=
  let idx := build_indexes defs none
  if strict then
    defs.filter (fun d => tagsSubsetOf d.tags query)
  else
    idx.tests_without_tags ++ query.flatMap idx.tag_to_tests

/-- One catalog test entry handed to the runner (a test class plus its
inputs, summarised by an identifier). -/
structure RunnerTestDef where
  id : Nat
deriving DecidableEq, Repr

/-- Log record emitted by the runner when the test list is empty. -/
def EMPTY_TESTS_LOG : String := "The list of tests is empty, exiting"

/-- Log record emitted by the runner when the inventory is empty. -/
def EMPTY_INVENTORY_LOG : String := "The inventory is empty, exiting"

/-- Modelled from the spec (`anta/runner.py` is absent from the snapshot;
its unit tests in `tests/units/test_runner.py` pin the two log messages):
`main(manager, inventory, tests)` short-circuits with one log record and
an unchanged manager when the test list is empty, then when the inventory
is empty; otherwise it runs one unit per (device, test) pair and appends
each unit's result to the manager (spec section 4.5). -/
def runner_main (manager : ResultManager) (inventory : List AntaDevice)
    (tests : List RunnerTestDef) (execute : AntaDevice → RunnerTestDef → TestResult) :
    ResultManager × List String :=
  if tests.isEmpty then (manager, [EMPTY_TESTS_LOG])
  else if inventory.isEmpty then (manager, [EMPTY_INVENTORY_LOG])
  else
    (manager.add_all (inventory.flatMap (fun d => tests.map (execute d))), [])

/-- A command cache key: the fully rendered command text plus the
protocol-revision/version qualifier (spec section 3,
"Command Cache entry"). -/
structure CommandKey where
  command : String
  version : String
deriving DecidableEq, Repr

/-- State of one cache slot: an in-progress marker that concurrent callers
await, or the stored payload of the completed call (spec section 9,
single-flight design note). Payloads are abstracted as naturals. -/
inductive SlotState
  | inFlight
  | done (v : Nat)
deriving DecidableEq, Repr

/-- State of one caller (one Test needing a command): not yet at the
cache, awaiting the in-flight call for its key, or finished having
observed a value. -/
inductive CallerState
  | idle (k : CommandKey)
  | waiting (k : CommandKey)
  | finished (k : CommandKey) (v : Nat)
deriving DecidableEq, Repr

/-- Pointwise function update. -/
def updFun {α β : Type} [DecidableEq α] (f : α → β) (a : α) (b : β) : α → β :=
  fun x => if x = a then b else f x

/-- Modelled from the spec (the device/cache module is absent from the
snapshot): the shared state of one device's command cache during a run —
the cache slots, the number of remote invocations issued per key, and the
caller states (spec sections 4.1 and 5). -/
structure CacheState where
  cache : CommandKey → Option SlotState
  invocations : CommandKey → Nat
  callers : Nat → CallerState

/-- Initial cache state for a run: empty cache, no invocations, every
caller idle on its requested key. -/
def cacheInit (req : Nat → CommandKey) : CacheState :=
  { cache := fun _ => none, invocations := fun _ => 0,
    callers := fun p => CallerState.idle (req p) }

/-- Modelled from the spec: one interleaved step of `get_or_execute`
(spec section 4.1). A caller hitting an empty slot installs the in-flight
marker and issues the remote call; a caller hitting an in-flight slot
piggy-backs on it; a caller hitting a completed slot returns the cached
value without contacting the device; the transport completes an in-flight
call with some payload; a waiting caller observes the completed value. -/
inductive CacheStep : CacheState → CacheState → Prop
  | start_miss (s : CacheState) (p : Nat) (k : CommandKey)
      (hc : s.callers p = CallerState.idle k) (hs : s.cache k = none) :
      CacheStep s
        { cache := updFun s.cache k (some SlotState.inFlight),
          invocations := updFun s.invocations k (s.invocations k + 1),
          callers := updFun s.callers p (CallerState.waiting k) }
  | start_inflight (s : CacheState) (p : Nat) (k : CommandKey)
      (hc : s.callers p = CallerState.idle k) (hs : s.cache k = some SlotState.inFlight) :
      CacheStep s { s with callers := updFun s.callers p (CallerState.waiting k) }
  | start_done (s : CacheState) (p : Nat) (k : CommandKey) (v : Nat)
      (hc : s.callers p = CallerState.idle k) (hs : s.cache k = some (SlotState.done v)) :
      CacheStep s { s with callers := updFun s.callers p (CallerState.finished k v) }
  | complete (s : CacheState) (k : CommandKey) (v : Nat)
      (hs : s.cache k = some SlotState.inFlight) :
      CacheStep s { s with cache := updFun s.cache k (some (SlotState.done v)) }
  | observe (s : CacheState) (p : Nat) (k : CommandKey) (v : Nat)
      (hc : s.callers p = CallerState.waiting k) (hs : s.cache k = some (SlotState.done v)) :
      CacheStep s { s with callers := updFun s.callers p (CallerState.finished k v) }

/-- States reachable in a run from the initial cache state. -/
inductive CacheReach (req : Nat → CommandKey) : CacheState → Prop
  | init : CacheReach req (cacheInit req)
  | step {s s' : CacheState} : CacheReach req s → CacheStep s s' → CacheReach req s'

/-- The single-flight invariant: an empty slot means no invocation was
issued for the key, an occupied slot means exactly one was; a finished
caller observed exactly the value stored in its key's completed slot. -/
def CacheInv (s : CacheState) : Prop :=
  ∀ k : CommandKey,
    (s.cache k = none → s.invocations k = 0) ∧
    (∀ slot, s.cache k = some slot → s.invocations k = 1) ∧
    (∀ p v, s.callers p = CallerState.finished k v → s.cache k = some (SlotState.done v))

theorem updFun_same {α β : Type} [DecidableEq α] (f : α → β) (a : α) (b : β) :
    updFun f a b a = b := by
  simp [updFun]

theorem updFun_other {α β : Type} [DecidableEq α] (f : α → β) (a : α) (b : β) (x : α)
    (h : x ≠ a) : updFun f a b x = f x := by
  simp [updFun, h]

theorem resultManager_add_all_entries (m : ResultManager) (entries : List TestResult) :
    (m.add_all entries)._result_entries = m._result_entries ++ entries := by
  induction entries generalizing m with
  | nil => simp [ResultManager.add_all]
  | cons e rest ih =>
      show (ResultManager.add_all (m.add_test_result e) rest)._result_entries = _
      rw [ih]
      simp [ResultManager.add_test_result]

/-- Claim C1: for every verification function wrapped by the `anta_test`
decorator, every device, and every exception raised by the wrapped
function, the wrapper returns normally with a `TestResult` of status
`error` whose sole message is the exception type name, a colon and the
exception message text (hence contains both). -/
theorem c1_anta_test_exception_boundary
    (function : VerificationFunction) (device : InventoryDevice) (e : PyException)
    (h : function.run device (initResult function device) = Except.error e) :
    anta_test function device =
      (initResult function device).is_error (e.typeName ++ ": " ++ e.message) ∧
    (anta_test function device).result = AntaTestStatus.error ∧
    (e.typeName ++ ": " ++ e.message) ∈ (anta_test function device).messages := by
  have heq : anta_test function device =
      (initResult function device).is_error (e.typeName ++ ": " ++ e.message) := by
    unfold anta_test
    dsimp only
    rw [h]
  refine ⟨heq, ?_, ?_⟩ <;> rw [heq] <;>
    simp [TestResult.is_error, TestResult.set_status, initResult]

def c1BoomFunction : VerificationFunction :=
  { name := "verify_boom",
    run := fun _ _ => Except.error { typeName := "ValueError", message := "boom" } }

def c1Device : InventoryDevice := { host := "192.168.0.10" }

theorem c1_anta_test_exception_boundary_witness :
    (anta_test c1BoomFunction c1Device).result = AntaTestStatus.error ∧
    ("ValueError" ++ ": " ++ "boom") ∈ (anta_test c1BoomFunction c1Device).messages := by
  have h := c1_anta_test_exception_boundary c1BoomFunction c1Device
    { typeName := "ValueError", message := "boom" } rfl
  exact ⟨h.2.1, h.2.2⟩

/-- Claim C6: the ResultManager never mutates or removes a stored entry:
after any sequence of `n` calls to `add_test_result`, `len` equals `n`
and `get_results()` returns exactly those `n` entries in insertion order,
duplicates all retained. -/
theorem c6_result_manager_append_only (entries : List TestResult) :
    (ResultManager.new.add_all entries).length = entries.length ∧
    (ResultManager.new.add_all entries).get_results OutputFormat.native = entries ∧
    (ResultManager.new.add_all entries).get_results OutputFormat.list = entries := by
  refine ⟨?_, ?_, ?_⟩ <;>
    simp [ResultManager.length, ResultManager.get_results, resultManager_add_all_entries,
      ResultManager.new]

/-- Claim C4: for every test instance whose result status is `unset`, if
the platform filter excludes the device's hardware identity (action `run`
with the model/series outside the list, or action `skip` with it inside),
the wrapper marks the result skipped and returns it without invoking the
wrapped verification body (zero body calls). -/
theorem c4_platform_filter_skips_excluded
    (t : AntaTestInstance) (body : AntaTestInstance → WrapOut)
    (platforms series : List String) (action : FilterAction) (s : String)
    (hunset : t.result.result = AntaTestStatus.unset) :
    (t.result.is_skipped (platform_skip_msg t)).result = AntaTestStatus.skipped ∧
    (((action = FilterAction.run ∧ t.device.hw_model ∉ platforms) ∨
      (action = FilterAction.skip ∧ t.device.hw_model ∈ platforms)) →
      platform_filter platforms action body t =
        { result := t.result.is_skipped (platform_skip_msg t), logs := [],
          progress := 1, bodyCalls := 0 }) ∧
    (t.device.hw_series = some s →
      ((action = FilterAction.run ∧ s ∉ series) ∨ (action = FilterAction.skip ∧ s ∈ series)) →
      platform_series_filter series action body t =
        { result := t.result.is_skipped (platform_skip_msg t), logs := [],
          progress := 1, bodyCalls := 0 }) := by
  refine ⟨by simp [TestResult.is_skipped, TestResult.set_status], ?_, ?_⟩
  · intro h
    unfold platform_filter
    rw [if_neg (by simp [hunset]), if_pos h]
  · intro hs h
    unfold platform_series_filter
    rw [if_neg (by simp [hunset])]
    simp only [hs]
    rw [if_pos h]

def c4Instance : AntaTestInstance :=
  { name := "VerifyFoo",
    device := { name := "dev1", hw_model := "cEOS-LAB", hw_series := some "cEOS" },
    result := { name := "dev1", test := "VerifyFoo", result := AntaTestStatus.unset,
                messages := [] } }

def c4Body : AntaTestInstance → WrapOut :=
  fun t => { result := t.result, logs := [], progress := 0, bodyCalls := 1 }

theorem c4_platform_filter_skips_excluded_witness :
    platform_filter ["7280R3"] FilterAction.run c4Body c4Instance =
      { result := c4Instance.result.is_skipped (platform_skip_msg c4Instance), logs := [],
        progress := 1, bodyCalls := 0 } ∧
    platform_series_filter ["7500R"] FilterAction.run c4Body c4Instance =
      { result := c4Instance.result.is_skipped (platform_skip_msg c4Instance), logs := [],
        progress := 1, bodyCalls := 0 } := by
  have h := c4_platform_filter_skips_excluded c4Instance c4Body ["7280R3"] ["7500R"]
    FilterAction.run "cEOS" rfl
  exact ⟨h.2.1 (Or.inl ⟨rfl, by decide⟩), h.2.2 rfl (Or.inl ⟨rfl, by decide⟩)⟩

/-- Claim C10: for every test instance whose result status is `unset` and
whose device has no hardware series, `platform_series_filter` never skips
the test: it logs the filter-ignored warning and invokes the wrapped
verification body, whatever the configured series list and action. -/
theorem c10_series_filter_ignored_when_series_unset
    (t : AntaTestInstance) (body : AntaTestInstance → WrapOut)
    (series : List String) (action : FilterAction)
    (hunset : t.result.result = AntaTestStatus.unset)
    (hnone : t.device.hw_series = none) :
    platform_series_filter series action body t =
      { body t with logs := series_ignored_msg t :: (body t).logs } ∧
    (platform_series_filter series action body t).result = (body t).result ∧
    (platform_series_filter series action body t).bodyCalls = (body t).bodyCalls := by
  have heq : platform_series_filter series action body t =
      { body t with logs := series_ignored_msg t :: (body t).logs } := by
    unfold platform_series_filter
    rw [if_neg (by simp [hunset])]
    simp only [hnone]
  exact ⟨heq, by rw [heq], by rw [heq]⟩

def c10Instance : AntaTestInstance :=
  { name := "VerifyBar",
    device := { name := "dev2", hw_model := "cEOS-LAB", hw_series := none },
    result := { name := "dev2", test := "VerifyBar", result := AntaTestStatus.unset,
                messages := [] } }

def c10Body : AntaTestInstance → WrapOut :=
  fun t => { result := t.result.set_status AntaTestStatus.success "ok", logs := ["ran"],
             progress := 1, bodyCalls := 1 }

theorem c10_series_filter_ignored_when_series_unset_witness :
    platform_series_filter ["7500R"] FilterAction.run c10Body c10Instance =
      { c10Body c10Instance with
        logs := series_ignored_msg c10Instance :: (c10Body c10Instance).logs } ∧
    (platform_series_filter ["7500R"] FilterAction.run c10Body c10Instance).bodyCalls = 1 := by
  have h := c10_series_filter_ignored_when_series_unset c10Instance c10Body ["7500R"]
    FilterAction.run rfl rfl
  exact ⟨h.1, h.2.2⟩

def c5ProbeBody : AntaTestInstance → WrapOut :=
  fun t => { result := t.result, logs := [], progress := 0, bodyCalls := 1 }

def c5TerminalInstance : AntaTestInstance :=
  { name := "VerifyOld",
    device := { name := "dev1", hw_model := "DCS-7280SR3-48YC8", hw_series := some "7280R3" },
    result := { name := "dev1", test := "VerifyOld", result := AntaTestStatus.failure,
                messages := ["fail"] } }

/-- Claim C5 counterexample: `deprecated_test` performs no terminal-status
check at all — on an instance whose result status is already `failure` it
still invokes the wrapped function (one body call recorded by the probe
body) and reports no progress, contradicting the claim that every
cross-cutting wrapper short-circuits on a terminal status. -/
theorem c5_counterexample_deprecated_never_short_circuits :
    c5TerminalInstance.result.result ≠ AntaTestStatus.unset ∧
    (deprecated_test none c5ProbeBody c5TerminalInstance).bodyCalls = 1 ∧
    (deprecated_test none c5ProbeBody c5TerminalInstance).progress = 0 :=
  ⟨by decide, rfl, rfl⟩

theorem applyWrapperStack_terminal (t : AntaTestInstance) (body : AntaTestInstance → WrapOut)
    (hterm : t.result.result ≠ AntaTestStatus.unset) :
    ∀ ws : List AntaWrapper, hasPlatformWrapper ws = true →
      (applyWrapperStack ws body t).result = t.result ∧
      (applyWrapperStack ws body t).progress = 1 ∧
      (applyWrapperStack ws body t).bodyCalls = 0 := by
  intro ws
  induction ws with
  | nil => intro hws; simp [hasPlatformWrapper] at hws
  | cons w rest ih =>
      intro hws
      cases w with
      | deprecated nt =>
          have hrest := ih (by simpa [hasPlatformWrapper] using hws)
          simpa [applyWrapperStack, applyWrapper, deprecated_test] using hrest
      | platform ps a =>
          have heq : applyWrapperStack (AntaWrapper.platform ps a :: rest) body t =
              { result := t.result, logs := [], progress := 1, bodyCalls := 0 } := by
            show platform_filter ps a (applyWrapperStack rest body) t = _
            unfold platform_filter
            rw [if_pos hterm]
          rw [heq]
          exact ⟨rfl, rfl, rfl⟩
      | platformSeries ss a =>
          have heq : applyWrapperStack (AntaWrapper.platformSeries ss a :: rest) body t =
              { result := t.result, logs := [], progress := 1, bodyCalls := 0 } := by
            show platform_series_filter ss a (applyWrapperStack rest body) t = _
            unfold platform_series_filter
            rw [if_pos hterm]
          rw [heq]
          exact ⟨rfl, rfl, rfl⟩

/-- Claim C5 amended: `platform_filter` and `platform_series_filter`, on an
instance whose result status is already terminal, report progress once and
return the existing result without calling the wrapped function;
`deprecated_test` performs no terminal-status check — it always logs its
deprecation warning and delegates to the wrapped function, reporting no
progress of its own — so across any wrapper stack containing at least one
platform filter, a terminal-status instance yields the existing result
with progress reported exactly once and the verification body never
invoked. -/
theorem c5_wrappers_terminal_short_circuit
    (t : AntaTestInstance) (body : AntaTestInstance → WrapOut)
    (platforms series : List String) (action : FilterAction)
    (new_tests : Option (List String)) (ws : List AntaWrapper)
    (hterm : t.result.result ≠ AntaTestStatus.unset) :
    deprecated_test new_tests body t =
      { body t with logs := deprecated_msg t new_tests :: (body t).logs } ∧
    platform_filter platforms action body t =
      { result := t.result, logs := [], progress := 1, bodyCalls := 0 } ∧
    platform_series_filter series action body t =
      { result := t.result, logs := [], progress := 1, bodyCalls := 0 } ∧
    (hasPlatformWrapper ws = true →
      (applyWrapperStack ws body t).result = t.result ∧
      (applyWrapperStack ws body t).progress = 1 ∧
      (applyWrapperStack ws body t).bodyCalls = 0) := by
  refine ⟨rfl, ?_, ?_, applyWrapperStack_terminal t body hterm ws⟩
  · unfold platform_filter
    rw [if_pos hterm]
  · unfold platform_series_filter
    rw [if_pos hterm]

theorem c5_wrappers_terminal_short_circuit_witness :
    platform_filter ["7280R3"] FilterAction.run c5ProbeBody c5TerminalInstance =
      { result := c5TerminalInstance.result, logs := [], progress := 1, bodyCalls := 0 } ∧
    (applyWrapperStack
        [AntaWrapper.deprecated none, AntaWrapper.platform ["7280R3"] FilterAction.run]
        c5ProbeBody c5TerminalInstance).progress = 1 ∧
    (applyWrapperStack
        [AntaWrapper.deprecated none, AntaWrapper.platform ["7280R3"] FilterAction.run]
        c5ProbeBody c5TerminalInstance).bodyCalls = 0 := by
  have h := c5_wrappers_terminal_short_circuit c5TerminalInstance c5ProbeBody
    ["7280R3"] ["7500R"] FilterAction.run none
    [AntaWrapper.deprecated none, AntaWrapper.platform ["7280R3"] FilterAction.run]
    (by decide)
  exact ⟨h.2.1, (h.2.2.2 rfl).2.1, (h.2.2.2 rfl).2.2⟩

def c3Execute : AntaDevice → RunnerTestDef → TestResult :=
  fun d t =>
    { name := d.name, test := toString t.id, result := AntaTestStatus.success, messages := [] }

/-- Claim C3: for every inventory, running the runner's `main` with an
empty test list returns normally, leaves the ResultManager empty, and
emits exactly one log record for the empty-test-list condition;
symmetrically, an empty inventory with a non-empty test list returns
normally with an empty ResultManager and exactly one empty-inventory log
record. -/
theorem c3_runner_empty_short_circuits
    (inventory : List AntaDevice) (tests : List RunnerTestDef)
    (execute : AntaDevice → RunnerTestDef → TestResult)
    (hne : tests ≠ []) :
    runner_main ResultManager.new inventory [] execute =
      (ResultManager.new, [EMPTY_TESTS_LOG]) ∧
    (runner_main ResultManager.new inventory [] execute).1.length = 0 ∧
    (runner_main ResultManager.new inventory [] execute).2.length = 1 ∧
    runner_main ResultManager.new [] tests execute =
      (ResultManager.new, [EMPTY_INVENTORY_LOG]) ∧
    (runner_main ResultManager.new [] tests execute).1.length = 0 ∧
    (runner_main ResultManager.new [] tests execute).2.length = 1 := by
  have hinv : runner_main ResultManager.new [] tests execute =
      (ResultManager.new, [EMPTY_INVENTORY_LOG]) := by
    cases tests with
    | nil => exact absurd rfl hne
    | cons a l => rfl
  refine ⟨rfl, rfl, rfl, hinv, ?_, ?_⟩ <;> rw [hinv] <;> rfl

theorem c3_runner_empty_short_circuits_witness :
    runner_main ResultManager.new [{ name := "dev1", hw_model := "cEOS-LAB", hw_series := none }]
        [] c3Execute = (ResultManager.new, [EMPTY_TESTS_LOG]) ∧
    runner_main ResultManager.new [] [{ id := 0 }] c3Execute =
      (ResultManager.new, [EMPTY_INVENTORY_LOG]) := by
  have h := c3_runner_empty_short_circuits
    [{ name := "dev1", hw_model := "cEOS-LAB", hw_series := none }] [{ id := 0 }]
    c3Execute (by decide)
  exact ⟨h.1, h.2.2.2.1⟩

/-- Claim C8: `get_max_concurrency` returns 10000 when the
`ANTA_MAX_CONCURRENCY` environment variable is unset, returns the
environment value when it parses as a positive integer, and constructing
`MaxConcurrencySettings` raises a validation error for zero, negative or
non-integer values, so the configured concurrency bound is always a
positive integer. -/
theorem c8_max_concurrency_settings (s : String) (i : Int) (env : Option String) (n : Nat) :
    get_max_concurrency none = Except.ok 10000 ∧
    (parsePyInt s = some i → 0 < i → get_max_concurrency (some s) = Except.ok i.toNat) ∧
    (parsePyInt s = some i → i ≤ 0 →
      ∃ e, MaxConcurrencySettings.ofEnv (some s) = Except.error e) ∧
    (parsePyInt s = none → ∃ e, MaxConcurrencySettings.ofEnv (some s) = Except.error e) ∧
    (get_max_concurrency env = Except.ok n → 0 < n) := by
  refine ⟨rfl, ?_, ?_, ?_, ?_⟩
  · intro hp hpos
    unfold get_max_concurrency MaxConcurrencySettings.ofEnv
    dsimp only
    rw [hp]
    dsimp only
    rw [if_pos hpos]
    rfl
  · intro hp hle
    unfold MaxConcurrencySettings.ofEnv
    dsimp only
    rw [hp]
    dsimp only
    rw [if_neg (by omega : ¬(0 : Int) < i)]
    exact ⟨_, rfl⟩
  · intro hp
    unfold MaxConcurrencySettings.ofEnv
    dsimp only
    rw [hp]
    exact ⟨_, rfl⟩
  · intro h
    cases env with
    | none =>
        have hn : (10000 : Nat) = n := by
          simpa [get_max_concurrency, MaxConcurrencySettings.ofEnv, Except.map,
            MAX_CONCURRENCY] using h
        omega
    | some s2 =>
        unfold get_max_concurrency MaxConcurrencySettings.ofEnv at h
        dsimp only at h
        cases hp : parsePyInt s2 with
        | none =>
            rw [hp] at h
            dsimp only at h
            simp [Except.map] at h
        | some j =>
            rw [hp] at h
            dsimp only at h
            by_cases hj : 0 < j
            · rw [if_pos hj] at h
              have hn : j.toNat = n := by simpa [Except.map] using h
              omega
            · rw [if_neg hj] at h
              simp [Except.map] at h

theorem c8_max_concurrency_settings_witness :
    get_max_concurrency none = Except.ok 10000 ∧
    get_max_concurrency (some "500") = Except.ok 500 ∧
    (0 : Nat) < 500 := by
  have h := c8_max_concurrency_settings "500" 500 (some "500") 500
  have h500 : get_max_concurrency (some "500") = Except.ok 500 :=
    h.2.1 (by decide) (by decide)
  exact ⟨h.1, h500, h.2.2.2.2 h500⟩

theorem parseTimeoutField_select (envf : Option String) (dflt : ℚ) (d : Option ℚ)
    (o1 : Option ℚ) (o2 : Bool) (h : parseTimeoutField envf dflt = Except.ok (o1, o2)) :
    (envf = none → (if o2 then o1 else d) = d) ∧
    (envf = some "None" → (if o2 then o1 else d) = none) ∧
    (∀ s q, envf = some s → s ≠ "None" → parsePyFloat s = some q →
      (if o2 then o1 else d) = some q) := by
  refine ⟨?_, ?_, ?_⟩
  · intro he
    subst he
    simp only [parseTimeoutField, Except.ok.injEq, Prod.mk.injEq] at h
    rw [← h.2, ← h.1]
    simp
  · intro he
    subst he
    unfold parseTimeoutField at h
    dsimp only at h
    rw [if_pos rfl] at h
    simp only [Except.ok.injEq, Prod.mk.injEq] at h
    rw [← h.2, ← h.1]
    simp
  · intro s q he hne hq
    subst he
    unfold parseTimeoutField at h
    dsimp only at h
    rw [if_neg hne, hq] at h
    dsimp only at h
    by_cases hqn : 0 ≤ q
    · rw [if_pos hqn] at h
      simp only [Except.ok.injEq, Prod.mk.injEq] at h
      rw [← h.2, ← h.1]
      simp
    · rw [if_neg hqn] at h
      exact absurd h (by simp)

/-- Claim C9: for each of the four operations (connect, read, write,
pool), `get_httpx_timeout(default_timeout)` returns the
environment-configured value for that operation exactly when the
corresponding `ANTA_*` environment variable was set (including the string
"None", meaning no timeout), and returns `default_timeout` otherwise;
each operation depends only on its own variable, so the four are
configurable independently (and none consults the scheduler's concurrency
bound). -/
theorem c9_httpx_timeout_per_operation (env : TimeoutsEnv) (d : Option ℚ)
    (tmo : HttpxTimeout) (h : get_httpx_timeout env d = Except.ok tmo) :
    ((env.connect = none → tmo.connect = d) ∧
     (env.connect = some "None" → tmo.connect = none) ∧
     (∀ s q, env.connect = some s → s ≠ "None" → parsePyFloat s = some q →
       tmo.connect = some q)) ∧
    ((env.read = none → tmo.read = d) ∧
     (env.read = some "None" → tmo.read = none) ∧
     (∀ s q, env.read = some s → s ≠ "None" → parsePyFloat s = some q →
       tmo.read = some q)) ∧
    ((env.write = none → tmo.write = d) ∧
     (env.write = some "None" → tmo.write = none) ∧
     (∀ s q, env.write = some s → s ≠ "None" → parsePyFloat s = some q →
       tmo.write = some q)) ∧
    ((env.pool = none → tmo.pool = d) ∧
     (env.pool = some "None" → tmo.pool = none) ∧
     (∀ s q, env.pool = some s → s ≠ "None" → parsePyFloat s = some q →
       tmo.pool = some q)) := by
  unfold get_httpx_timeout HttpxTimeoutsSettings.ofEnv at h
  cases hc : parseTimeoutField env.connect HTTPX_CONNECT_TIMEOUT with
  | error e => rw [hc] at h; exact absurd h (by simp)
  | ok c =>
  cases hr : parseTimeoutField env.read HTTPX_READ_TIMEOUT with
  | error e => rw [hc, hr] at h; exact absurd h (by simp)
  | ok r =>
  cases hw : parseTimeoutField env.write HTTPX_WRITE_TIMEOUT with
  | error e => rw [hc, hr, hw] at h; exact absurd h (by simp)
  | ok w =>
  cases hp : parseTimeoutField env.pool HTTPX_POOL_TIMEOUT with
  | error e => rw [hc, hr, hw, hp] at h; exact absurd h (by simp)
  | ok p =>
  rw [hc, hr, hw, hp] at h
  dsimp only at h
  simp only [Except.ok.injEq] at h
  rw [← h]
  exact ⟨parseTimeoutField_select env.connect HTTPX_CONNECT_TIMEOUT d c.1 c.2 (by rw [hc]),
         parseTimeoutField_select env.read HTTPX_READ_TIMEOUT d r.1 r.2 (by rw [hr]),
         parseTimeoutField_select env.write HTTPX_WRITE_TIMEOUT d w.1 w.2 (by rw [hw]),
         parseTimeoutField_select env.pool HTTPX_POOL_TIMEOUT d p.1 p.2 (by rw [hp])⟩

def c9Env : TimeoutsEnv :=
  { connect := some "None", read := some "15", write := none, pool := none }

def c9Timeout : HttpxTimeout :=
  { connect := none, read := some 15, write := some 10, pool := some 10 }

theorem c9_httpx_timeout_per_operation_witness :
    get_httpx_timeout c9Env (some 10) = Except.ok c9Timeout ∧
    c9Timeout.connect = none ∧ c9Timeout.read = some 15 ∧
    c9Timeout.write = some 10 ∧ c9Timeout.pool = some 10 := by
  have hok : get_httpx_timeout c9Env (some 10) = Except.ok c9Timeout := by
    rfl
  have H := c9_httpx_timeout_per_operation c9Env (some 10) c9Timeout hok
  refine ⟨hok, H.1.2.1 rfl, ?_, H.2.2.1.1 rfl, H.2.2.2.1 rfl⟩
  exact H.2.1.2.2 "15" 15 rfl (by decide) (by decide)

theorem tagsIncludeTag_iff (tags : Option (List String)) (tag : String) :
    tagsIncludeTag tags tag = true ↔ ∃ l, tags = some l ∧ tag ∈ l := by
  cases tags with
  | none => simp [tagsIncludeTag]
  | some l => simp [tagsIncludeTag, List.contains, List.elem_iff]

theorem tagsSubsetOf_iff (tags : Option (List String)) (query : List String) :
    tagsSubsetOf tags query = true ↔ ∃ l, tags = some l ∧ ∀ t ∈ l, t ∈ query := by
  cases tags with
  | none => simp [tagsSubsetOf]
  | some l => simp [tagsSubsetOf, List.all_eq_true, List.contains, List.elem_iff]

/-- Claim C7: for every indexed catalog and every query tag set, the
non-strict tag query returns exactly the union of the untagged definition
set with, for each query tag, the definitions indexed under that tag
(any-overlap); with strict mode it instead returns exactly the
definitions whose entire required tag set is a subset of the query tags
(conjunctive match). -/
theorem c7_get_tests_by_tags_semantics (defs : List AntaTestDefinition)
    (query : List String) (d : AntaTestDefinition) :
    (d ∈ get_tests_by_tags defs query false ↔
      d ∈ defs ∧ (d.tags = none ∨ ∃ tag ∈ query, ∃ l, d.tags = some l ∧ tag ∈ l)) ∧
    (d ∈ get_tests_by_tags defs query true ↔
      d ∈ defs ∧ ∃ l, d.tags = some l ∧ ∀ tag ∈ l, tag ∈ query) := by
  constructor
  · simp only [get_tests_by_tags, build_indexes, Bool.false_eq_true, if_false,
      List.mem_append, List.mem_filter, List.mem_flatMap, tagsIncludeTag_iff,
      Option.isNone_iff_eq_none]
    constructor
    · rintro (⟨hd, ht⟩ | ⟨tag, htag, hd, hl⟩)
      · exact ⟨hd, Or.inl ht⟩
      · exact ⟨hd, Or.inr ⟨tag, htag, hl⟩⟩
    · rintro ⟨hd, ht | ⟨tag, htag, hl⟩⟩
      · exact Or.inl ⟨hd, ht⟩
      · exact Or.inr ⟨tag, htag, hd, hl⟩
  · simp only [get_tests_by_tags, if_true, List.mem_filter, tagsSubsetOf_iff]

theorem cacheInv_init (req : Nat → CommandKey) : CacheInv (cacheInit req) := by
  intro k
  refine ⟨fun _ => rfl, ?_, ?_⟩
  · intro slot hslot
    exact absurd hslot (by simp [cacheInit])
  · intro p v hfin
    exact absurd hfin (by simp [cacheInit])

theorem cacheInv_step {s s' : CacheState} (hinv : CacheInv s) (hstep : CacheStep s s') :
    CacheInv s' := by
  cases hstep with
  | start_miss p k hc hs =>
      intro k2
      dsimp only
      by_cases hk : k2 = k
      · subst hk
        refine ⟨?_, ?_, ?_⟩
        · intro hnone
          rw [updFun_same] at hnone
          exact absurd hnone (by simp)
        · intro slot _
          rw [updFun_same, (hinv k2).1 hs]
        · intro p2 v hfin
          by_cases hp2 : p2 = p
          · subst hp2
            rw [updFun_same] at hfin
            exact absurd hfin (by simp)
          · rw [updFun_other s.callers p _ p2 hp2] at hfin
            have hdone := (hinv k2).2.2 p2 v hfin
            rw [hs] at hdone
            exact absurd hdone (by simp)
      · refine ⟨?_, ?_, ?_⟩
        · intro hnone
          rw [updFun_other s.cache k _ k2 hk] at hnone
          rw [updFun_other s.invocations k _ k2 hk]
          exact (hinv k2).1 hnone
        · intro slot hslot
          rw [updFun_other s.cache k _ k2 hk] at hslot
          rw [updFun_other s.invocations k _ k2 hk]
          exact (hinv k2).2.1 slot hslot
        · intro p2 v hfin
          rw [updFun_other s.cache k _ k2 hk]
          by_cases hp2 : p2 = p
          · subst hp2
            rw [updFun_same] at hfin
            exact absurd hfin (by simp)
          · rw [updFun_other s.callers p _ p2 hp2] at hfin
            exact (hinv k2).2.2 p2 v hfin
  | start_inflight p k hc hs =>
      intro k2
      dsimp only
      refine ⟨(hinv k2).1, (hinv k2).2.1, ?_⟩
      intro p2 v hfin
      by_cases hp2 : p2 = p
      · subst hp2
        rw [updFun_same] at hfin
        exact absurd hfin (by simp)
      · rw [updFun_other s.callers p _ p2 hp2] at hfin
        exact (hinv k2).2.2 p2 v hfin
  | start_done p k v hc hs =>
      intro k2
      dsimp only
      refine ⟨(hinv k2).1, (hinv k2).2.1, ?_⟩
      intro p2 v2 hfin
      by_cases hp2 : p2 = p
      · subst hp2
        rw [updFun_same] at hfin
        obtain ⟨hk2, hv2⟩ : k = k2 ∧ v = v2 := by
          cases hfin
          exact ⟨rfl, rfl⟩
        subst hk2
        subst hv2
        exact hs
      · rw [updFun_other s.callers p _ p2 hp2] at hfin
        exact (hinv k2).2.2 p2 v2 hfin
  | complete k v hs =>
      intro k2
      dsimp only
      by_cases hk : k2 = k
      · subst hk
        refine ⟨?_, ?_, ?_⟩
        · intro hnone
          rw [updFun_same] at hnone
          exact absurd hnone (by simp)
        · intro slot _
          exact (hinv k2).2.1 SlotState.inFlight hs
        · intro p2 v2 hfin
          have hdone := (hinv k2).2.2 p2 v2 hfin
          rw [hs] at hdone
          exact absurd hdone (by simp)
      · refine ⟨?_, ?_, ?_⟩
        · intro hnone
          rw [updFun_other s.cache k _ k2 hk] at hnone
          exact (hinv k2).1 hnone
        · intro slot hslot
          rw [updFun_other s.cache k _ k2 hk] at hslot
          exact (hinv k2).2.1 slot hslot
        · intro p2 v2 hfin
          rw [updFun_other s.cache k _ k2 hk]
          exact (hinv k2).2.2 p2 v2 hfin
  | observe p k v hc hs =>
      intro k2
      dsimp only
      refine ⟨(hinv k2).1, (hinv k2).2.1, ?_⟩
      intro p2 v2 hfin
      by_cases hp2 : p2 = p
      · subst hp2
        rw [updFun_same] at hfin
        obtain ⟨hk2, hv2⟩ : k = k2 ∧ v = v2 := by
          cases hfin
          exact ⟨rfl, rfl⟩
        subst hk2
        subst hv2
        exact hs
      · rw [updFun_other s.callers p _ p2 hp2] at hfin
        exact (hinv k2).2.2 p2 v2 hfin

theorem cacheInv_reach {req : Nat → CommandKey} {s : CacheState} (h : CacheReach req s) :
    CacheInv s := by
  induction h with
  | init => exact cacheInv_init req
  | step _ hstep ih => exact cacheInv_step ih hstep

/-- Claim C2: for every device run and every distinct command key, at most
one remote invocation is issued in any reachable state of the single-flight
cache, no matter how many callers request the key or how the steps
interleave; and every caller that finished with a value for a key observed
exactly the value stored in that key's completed slot, so any two finished
callers for the same key observed the same result. -/
theorem c2_single_flight_cache (req : Nat → CommandKey) (s : CacheState)
    (h : CacheReach req s) (k : CommandKey) :
    s.invocations k ≤ 1 ∧
    (∀ p v, s.callers p = CallerState.finished k v → s.cache k = some (SlotState.done v)) ∧
    (∀ p q v w, s.callers p = CallerState.finished k v →
      s.callers q = CallerState.finished k w → v = w) := by
  have hinv := cacheInv_reach h
  refine ⟨?_, (hinv k).2.2, ?_⟩
  · cases hcache : s.cache k with
    | none => rw [(hinv k).1 hcache]; omega
    | some slot => rw [(hinv k).2.1 slot hcache]
  · intro p q v w hp hq
    have h1 := (hinv k).2.2 p v hp
    have h2 := (hinv k).2.2 q w hq
    rw [h1] at h2
    cases h2
    rfl

def c2Key : CommandKey := { command := "show version", version := "latest" }

def c2Req : Nat → CommandKey := fun _ => c2Key

def c2S0 : CacheState := cacheInit c2Req

def c2S1 : CacheState :=
  { cache := updFun c2S0.cache c2Key (some SlotState.inFlight),
    invocations := updFun c2S0.invocations c2Key (c2S0.invocations c2Key + 1),
    callers := updFun c2S0.callers 0 (CallerState.waiting c2Key) }

def c2S2 : CacheState :=
  { c2S1 with callers := updFun c2S1.callers 1 (CallerState.waiting c2Key) }

def c2S3 : CacheState :=
  { c2S2 with cache := updFun c2S2.cache c2Key (some (SlotState.done 42)) }

def c2S4 : CacheState :=
  { c2S3 with callers := updFun c2S3.callers 0 (CallerState.finished c2Key 42) }

def c2S5 : CacheState :=
  { c2S4 with callers := updFun c2S4.callers 1 (CallerState.finished c2Key 42) }

theorem c2_single_flight_cache_witness :
    c2S5.invocations c2Key ≤ 1 ∧
    c2S5.invocations c2Key = 1 ∧
    c2S5.callers 0 = CallerState.finished c2Key 42 ∧
    c2S5.callers 1 = CallerState.finished c2Key 42 := by
  have hreach : CacheReach c2Req c2S5 :=
    CacheReach.step
      (CacheReach.step
        (CacheReach.step
          (CacheReach.step
            (CacheReach.step CacheReach.init
              (CacheStep.start_miss c2S0 0 c2Key (by decide) (by decide)))
            (CacheStep.start_inflight c2S1 1 c2Key (by decide) (by decide)))
          (CacheStep.complete c2S2 c2Key 42 (by decide)))
        (CacheStep.observe c2S3 0 c2Key 42 (by decide) (by decide)))
      (CacheStep.observe c2S4 1 c2Key 42 (by decide) (by decide))
  have h := c2_single_flight_cache c2Req c2S5 hreach c2Key
  exact ⟨h.1, by decide, by decide, by decide⟩
